import Mathlib

/-!
Shallow embedding of the Partner-Allocation coordination core
(`src/lib/lock.ts`, `src/lib/rateLimit.ts`, and the four API route
handlers: assign `src/app/api/bookings` (assign route), review
`src/app/api/bookings/review/route.ts`, confirm
`src/app/api/bookings/confirm/route.ts`, gps
`src/app/api/partners/[id]/gps/route.ts`).

Modelling conventions:
* MongoDB documents become Lean structures; a collection is a `List` of
  documents keyed by the `_id : String` field; `findOne` is `List.find?`
  on `_id`, `updateOne` maps the update over every record whose `_id`
  matches (a Mongo `updateOne` touches one document; on id-keyed lists
  without duplicate ids the two coincide, and all theorems below hold
  for the map-based update as well).
* `Date.now()` / `new Date()` become an explicit `now : Int`
  (milliseconds) argument threaded into each operation.
* Redis availability is an explicit boolean (or a small enum for the
  rate limiter, which distinguishes a failing client connection from a
  failing pipeline, because the source treats them differently):
  `publishX` throws when Redis is unavailable (`src/lib/pubsub.ts`
  does not catch), `acquireLock`/`releaseLock` catch and fail open
  (`src/lib/lock.ts`).
* The `$geoNear` aggregation of the assign route is modelled by
  filtering the partner pool with the query predicate and taking
  `List.argmin` of the distance, with the spherical distance function
  an explicit parameter `dist` (the store computes it; every theorem
  quantifies over `dist`).
* Request-shape validation that the routes perform before touching any
  state (missing body fields, `ObjectId.isValid`) is outside the
  embedding: ids and actor names are opaque strings.  The
  rejection-reason validation of the review route is modelled, because
  the workflow claims depend on it.
* Lock leases (expiry seconds) are carried as data but expiry itself is
  not modelled; the lock store is the set of currently held keys.
-/

namespace PartnerAllocation

/-- `DocumentStatus` enum from `src/lib/types.ts`. -/
inductive DocumentStatus where
  | pending
  | approved
  | rejected
deriving DecidableEq, Repr

/-- `BookingStatus` enum from `src/lib/types.ts`. -/
inductive BookingStatus where
  | pending
  | partnerAssigned
  | documentsUnderReview
  | confirmed
  | cancelled
deriving DecidableEq, Repr

/-- `PartnerStatus` enum from `src/lib/types.ts`. -/
inductive PartnerStatus where
  | online
  | offline
  | busy
deriving DecidableEq, Repr

/-- The fixed document-type tags of `Document.type` in `src/lib/types.ts`. -/
inductive DocType where
  | selfie
  | signature
  | idProof
  | addressProof
deriving DecidableEq, Repr

/-- GeoJSON `Coordinates` (`[longitude, latitude]`) from `src/lib/types.ts`. -/
structure Coordinates where
  lng : Int
  lat : Int
deriving DecidableEq, Repr

/-- `Document` from `src/lib/types.ts` (embedded in a booking). -/
structure Document where
  type : DocType
  url : String
  status : DocumentStatus
  reviewedBy : Option String := none
  reviewedAt : Option Int := none
  rejectionReason : Option String := none
deriving DecidableEq, Repr

/-- `Address` from `src/lib/types.ts`. -/
structure Address where
  street : String
  city : String
  state : String
  pincode : String
  coordinates : Coordinates
deriving DecidableEq, Repr

/-- `Booking` from `src/lib/types.ts`. -/
structure Booking where
  _id : String
  userId : String
  address : Address
  documents : List Document
  status : BookingStatus
  partnerId : Option String := none
  partnerAssignedAt : Option Int := none
  partnerAssignedBy : Option String := none
  confirmedAt : Option Int := none
  confirmedBy : Option String := none
  createdAt : Int
  updatedAt : Int
deriving DecidableEq, Repr

/-- `GPSHistory` entry from `src/lib/types.ts`. -/
structure GPSHistory where
  coordinates : Coordinates
  timestamp : Int
  speed : Option Int := none
  accuracy : Option Int := none
deriving DecidableEq, Repr

/-- `Partner` from `src/lib/types.ts`. -/
structure Partner where
  _id : String
  name : String
  email : String
  phone : String
  city : String
  location : Coordinates
  status : PartnerStatus
  currentBookingId : Option String := none
  gpsHistory : List GPSHistory := []
  rating : Option Int := none
  totalDeliveries : Option Nat := none
  createdAt : Int
  updatedAt : Int
deriving DecidableEq, Repr

/-- The durable store: the `bookings` and `partners` Mongo collections. -/
structure DB where
  bookings : List Booking
  partners : List Partner
deriving DecidableEq, Repr

/-- Typed failure results.  The route handlers throw `Error` with a
message; each distinct throw site (plus the spec's taxonomy kinds
realised by the infrastructure) gets one constructor. -/
inductive AppError where
  | bookingNotFound
  | alreadyConfirmed
  | noPartnerAssigned
  | documentsNotApproved (types : List DocType)
  | invalidState (st : BookingStatus)
  | noPartnerAvailable
  | documentNotFound
  | documentAlreadyReviewed (st : DocumentStatus)
  | validationError
  | partnerNotFound
  | rateLimited
  | pubsubUnavailable
  | lockContention
  | dependencyUnavailable
deriving DecidableEq, Repr

/-- `findOne({_id: bookingId})` on the bookings collection. -/
def findBooking (db : DB) (id : String) : Option Booking :=
  db.bookings.find? (fun b => b._id = id)

/-- `findOne({_id: partnerId})` on the partners collection. -/
def findPartner (db : DB) (id : String) : Option Partner :=
  db.partners.find? (fun p => p._id = id)

/-- `updateOne({_id: id}, ...)` on the bookings collection. -/
def updateBookingById (db : DB) (id : String) (f : Booking → Booking) : DB :=
  { db with bookings := db.bookings.map (fun b => if b._id = id then f b else b) }

/-- `updateOne({_id: id}, ...)` on the partners collection. -/
def updatePartnerById (db : DB) (id : String) (f : Partner → Partner) : DB :=
  { db with partners := db.partners.map (fun p => if p._id = id then f p else p) }

/-- `Except.ok`ness as a Bool, for stating success of an operation. -/
def isOkB {ε α : Type} : Except ε α → Bool
  | .ok _ => true
  | .error _ => false

/-! ## Lock Manager (`src/lib/lock.ts`)

The lock store is the set of currently held Redis keys; `redisOk`
says whether the coordination store is reachable.  Lease expiry is not
modelled (no claim depends on it). -/

/-- `acquireLock` (`src/lib/lock.ts`): `SET key locked NX EX seconds`;
on a Redis error it catches and returns `true` (proceeds without the
distributed lock), without recording the key. -/
def acquireLock (redisOk : Bool) (key : String) (locks : List String) :
    Bool × List String :=
  if !redisOk then (true, locks)
  else if key ∈ locks then (false, locks)
  else (true, key :: locks)

/-- `releaseLock` (`src/lib/lock.ts`): `DEL key`; on a Redis error it
catches and skips. -/
def releaseLock (redisOk : Bool) (key : String) (locks : List String) :
    List String :=
  if redisOk then locks.erase key else locks

/-- `withLock` (`src/lib/lock.ts`): acquire; on failure throw the
`Unable to acquire lock` error (surfaced to callers as lock
contention); on success run `fn` and release in a `finally`, so the
release happens whether `fn` returns or throws.  `fn` is a state
transformer on the durable store `σ` returning a typed result. -/
def withLock {σ β : Type} (redisOk : Bool) (key : String)
    (fn : σ → Except AppError β × σ) (db : σ) (locks : List String) :
    Except AppError β × σ × List String :=
  let acq := acquireLock redisOk key locks
  if acq.1 then
    let r := fn db
    (r.1, r.2, releaseLock redisOk key acq.2)
  else
    (.error .lockContention, db, acq.2)

/-- `LOCK_KEYS` (`src/lib/lock.ts`). -/
def lockKeyAssignment (bookingId : String) : String :=
  "lock:booking:assign:" ++ bookingId

/-- `LOCK_KEYS.BOOKING_CONFIRMATION` (`src/lib/lock.ts`). -/
def lockKeyConfirmation (bookingId : String) : String :=
  "lock:booking:confirm:" ++ bookingId

/-- `LOCK_KEYS.DOCUMENT_REVIEW` (`src/lib/lock.ts`). -/
def lockKeyReview (bookingId : String) (docType : String) : String :=
  "lock:booking:review:" ++ bookingId ++ ":" ++ docType

/-! ## Rate Limiter (`src/lib/rateLimit.ts`)

A subject's Redis sorted set is a duplicate-free `List Int` of
millisecond timestamps (`zadd key now now` keys the member by the
timestamp string, so adding a timestamp already present leaves the set
unchanged). -/

/-- `ZREMRANGEBYSCORE key lo hi`: drop the members with score in
`[lo, hi]`. -/
def zremrangebyscore (lo hi : Int) (l : List Int) : List Int :=
  l.filter (fun ts => !(lo ≤ ts && ts ≤ hi))

/-- `ZADD key score member` with `member = toString score`: insert the
score if no equal member exists. -/
def zadd (score : Int) (l : List Int) : List Int :=
  if score ∈ l then l else score :: l

/-- Result record of `rateLimit` (`src/lib/rateLimit.ts`). -/
structure RateResult where
  allowed : Bool
  remaining : Nat
  resetIn : Nat
deriving DecidableEq, Repr

/-- The Redis pipeline body of `rateLimit` (`src/lib/rateLimit.ts`,
the non-failing path): remove entries with score in
`[0, now - windowSeconds*1000]`, count the survivors (`zcard` runs
before the `zadd` in the pipeline), add `now` unconditionally, and
derive `allowed = count < limit`,
`remaining = max 0 (limit - count - 1)` (truncated `Nat` subtraction
realises the `Math.max(0, ...)`), `resetIn = windowSeconds`. -/
def rateLimitPipeline (limit windowSeconds : Nat) (now : Int)
    (l : List Int) : RateResult × List Int :=
  let windowStart : Int := now - (windowSeconds : Int) * 1000
  let pruned := zremrangebyscore 0 windowStart l
  let count := pruned.length
  let l2 := zadd now pruned
  ({ allowed := count < limit
     remaining := limit - count - 1
     resetIn := windowSeconds }, l2)

/-- How the coordination store behaves during a rate-limiter check:
the client connection is obtained (`getRedisClient`, OUTSIDE the `try`
block of `rateLimit`), then the pipeline runs (inside the `try`). -/
inductive RedisAvail where
  | ok
  | pipelineFailed
  | connFailed
deriving DecidableEq, Repr

/-- `rateLimit` (`src/lib/rateLimit.ts`) with the store's availability
explicit.  `getRedisClient()` is called before the `try`, so a failing
client connection propagates as an exception (`dependencyUnavailable`)
instead of being caught; a failing pipeline is caught and answered
with `allowed = true, remaining = limit - 1` (fail-open). -/
def rateLimit (avail : RedisAvail) (limit windowSeconds : Nat)
    (now : Int) (l : List Int) : Except AppError RateResult × List Int :=
  match avail with
  | .connFailed => (.error .dependencyUnavailable, l)
  | .pipelineFailed =>
      (.ok { allowed := true, remaining := limit - 1, resetIn := windowSeconds }, l)
  | .ok =>
      let r := rateLimitPipeline limit windowSeconds now l
      (.ok r.1, r.2)

/-! ## Confirm booking (`src/app/api/bookings/confirm/route.ts`)

The function passed to `withLock`.  `pubsubOk` is whether
`publishBookingConfirmed` (`src/lib/pubsub.ts`) can reach Redis: it
does not catch, so an unreachable store throws AFTER the two Mongo
updates have been applied. -/

/-- Success payload of the confirm route. -/
structure ConfirmPayload where
  bookingId : String
  partnerId : String
  confirmedAt : Int
  confirmedBy : String
deriving DecidableEq, Repr

/-- The `$inc: {totalDeliveries: 1}` update: Mongo creates a missing
field with the increment value. -/
def incDeliveries (n : Option Nat) : Option Nat :=
  some (n.getD 0 + 1)

/-- The critical section of the confirm route
(`src/app/api/bookings/confirm/route.ts`): fetch the booking; reject a
missing booking, an already-`confirmed` booking, a booking with no
`partnerId`, and a booking with any non-`approved` document (naming
the offending document types); otherwise set the booking to
`confirmed` with actor and timestamp, increment the assigned partner's
`totalDeliveries`, then publish the confirmation event. -/
def confirmBooking (pubsubOk : Bool) (bookingId adminId : String)
    (now : Int) (db : DB) : Except AppError ConfirmPayload × DB :=
  match findBooking db bookingId with
  | none => (.error .bookingNotFound, db)
  | some booking =>
    if booking.status = .confirmed then (.error .alreadyConfirmed, db)
    else
      match booking.partnerId with
      | none => (.error .noPartnerAssigned, db)
      | some pid =>
        if booking.documents.all (fun d => d.status = .approved) then
          let db1 := updateBookingById db bookingId (fun b =>
            { b with status := .confirmed, confirmedAt := some now,
                     confirmedBy := some adminId, updatedAt := now })
          let db2 := updatePartnerById db1 pid (fun p =>
            { p with totalDeliveries := incDeliveries p.totalDeliveries,
                     updatedAt := now })
          if pubsubOk then
            (.ok { bookingId := bookingId, partnerId := pid,
                   confirmedAt := now, confirmedBy := adminId }, db2)
          else (.error .pubsubUnavailable, db2)
        else
          (.error (.documentsNotApproved
            ((booking.documents.filter (fun d => !(d.status = .approved))).map
              (fun d => d.type))), db)

/-! ## Review document (`src/app/api/bookings/review/route.ts`) -/

/-- Success payload of the review route. -/
structure ReviewPayload where
  bookingId : String
  documentType : DocType
  status : DocumentStatus
  reviewedBy : String
deriving DecidableEq, Repr

/-- JavaScript truthiness of the `rejectionReason` body field: absent
and the empty string are both falsy. -/
def reasonTruthy : Option String → Bool
  | none => false
  | some s => !(s = "")

/-- Positional update of the first document whose `type` matches
(`findIndex` + `$set` on `documents.<i>.*` in the review route). -/
def updateFirstDoc (dtype : DocType) (f : Document → Document) :
    List Document → List Document
  | [] => []
  | d :: ds =>
      if d.type = dtype then f d :: ds else d :: updateFirstDoc dtype f ds

/-- The reviewed form of a document: status set to the requested
decision, reviewer and timestamp recorded, and — when rejecting with a
truthy reason — the rejection reason stored. -/
def reviewedDoc (st : DocumentStatus) (reviewerId : String)
    (reason : Option String) (now : Int) (d : Document) : Document :=
  { d with status := st, reviewedBy := some reviewerId,
           reviewedAt := some now,
           rejectionReason :=
             if st = .rejected && reasonTruthy reason then reason
             else d.rejectionReason }

/-- The review route (`src/app/api/bookings/review/route.ts`): the
pre-lock validation that a rejection carries a (truthy) reason, then
the critical section: fetch the booking; reject a missing booking and
a `confirmed`/`cancelled` booking; find the named document (reject if
absent); reject a document that is not `pending`; otherwise write the
decision into the document, force the booking status to
`documents_under_review`, and publish the review event. -/
def reviewDocument (pubsubOk : Bool) (bookingId : String) (dtype : DocType)
    (st : DocumentStatus) (reviewerId : String) (reason : Option String)
    (now : Int) (db : DB) : Except AppError ReviewPayload × DB :=
  if st = .rejected && !reasonTruthy reason then (.error .validationError, db)
  else
    match findBooking db bookingId with
    | none => (.error .bookingNotFound, db)
    | some booking =>
      if booking.status = .confirmed || booking.status = .cancelled then
        (.error (.invalidState booking.status), db)
      else
        match booking.documents.find? (fun d => d.type = dtype) with
        | none => (.error .documentNotFound, db)
        | some d =>
          if !(d.status = .pending) then
            (.error (.documentAlreadyReviewed d.status), db)
          else
            let db1 := updateBookingById db bookingId (fun b =>
              { b with
                  documents :=
                    updateFirstDoc dtype (reviewedDoc st reviewerId reason now)
                      b.documents,
                  status := .documentsUnderReview, updatedAt := now })
            if pubsubOk then
              (.ok { bookingId := bookingId, documentType := dtype,
                     status := st, reviewedBy := reviewerId }, db1)
            else (.error .pubsubUnavailable, db1)

/-! ## Assign partner (the assign route, `POST /api/bookings/assign`)

The `$geoNear` stage orders by spherical distance from the booking's
coordinate, restricted by the query
`{status: online, city: booking.address.city, currentBookingId: {$exists: false}}`
and `maxDistance: 50000` metres; `$limit: 1` keeps the nearest.  The
spherical distance is computed by the store, so it is a parameter
`dist` here, and the nearest-within-the-filter element is
`List.argmin`. -/

/-- Success payload of the assign route. -/
structure AssignPayload where
  bookingId : String
  partnerId : String
  partnerName : String
  distance : Nat
deriving DecidableEq, Repr

/-- The `$geoNear` query predicate of the assign route: online, in the
booking's city, with no `currentBookingId`, and within 50 km of the
booking's coordinate. -/
def eligiblePartner (dist : Coordinates → Coordinates → Nat)
    (center : Coordinates) (city : String) (p : Partner) : Bool :=
  p.status = .online && p.city = city && p.currentBookingId = none
    && dist center p.location ≤ 50000

/-- The `$geoNear` + `$limit 1` aggregation: the distance-minimal
partner among those matching the query, if any. -/
def nearestEligible (dist : Coordinates → Coordinates → Nat)
    (center : Coordinates) (city : String) (partners : List Partner) :
    Option Partner :=
  (partners.filter (eligiblePartner dist center city)).argmin
    (fun p => dist center p.location)

/-- The critical section of the assign route: fetch the booking;
reject a missing booking and one not in `pending` status; query the
nearest eligible partner (reject with no-partner-available if none);
set the booking to `partner_assigned` with partner id, actor and
timestamp; mark the partner `busy` with the booking id; publish the
assignment event. -/
def assignPartner (pubsubOk : Bool) (dist : Coordinates → Coordinates → Nat)
    (bookingId adminId : String) (now : Int) (db : DB) :
    Except AppError AssignPayload × DB :=
  match findBooking db bookingId with
  | none => (.error .bookingNotFound, db)
  | some booking =>
    if !(booking.status = .pending) then
      (.error (.invalidState booking.status), db)
    else
      match nearestEligible dist booking.address.coordinates
          booking.address.city db.partners with
      | none => (.error .noPartnerAvailable, db)
      | some p =>
        let db1 := updateBookingById db bookingId (fun b =>
          { b with partnerId := some p._id, partnerAssignedAt := some now,
                   partnerAssignedBy := some adminId,
                   status := .partnerAssigned, updatedAt := now })
        let db2 := updatePartnerById db1 p._id (fun q =>
          { q with currentBookingId := some bookingId, status := .busy,
                   updatedAt := now })
        if pubsubOk then
          (.ok { bookingId := bookingId, partnerId := p._id,
                 partnerName := p.name,
                 distance := dist booking.address.coordinates p.location },
           db2)
        else (.error .pubsubUnavailable, db2)

/-! ## GPS ingestion (`src/app/api/partners/[id]/gps/route.ts`) -/

/-- Success payload of the GPS route. -/
structure GpsPayload where
  partnerId : String
  coordinates : Coordinates
  timestamp : Int
deriving DecidableEq, Repr

/-- `$push` with `$slice: -100`: append and keep the last 100
entries. -/
def pushSlice100 (h : List GPSHistory) (e : GPSHistory) : List GPSHistory :=
  let h2 := h ++ [e]
  h2.drop (h2.length - 100)

/-- The GPS route (`src/app/api/partners/[id]/gps/route.ts`) after the
rate-limit gate: coordinate-bounds validation, then fetch the partner
(reject if missing), update its current location, push the ping onto
the bounded history, and publish the location event.  `admitted` is
the rate limiter's verdict for this call (a denied or erroring check
returns before any write). -/
def recordGps (pubsubOk admitted : Bool) (partnerId : String)
    (lng lat : Int) (speed accuracy : Option Int) (now : Int) (db : DB) :
    Except AppError GpsPayload × DB :=
  if !(-180 ≤ lng && lng ≤ 180 && -90 ≤ lat && lat ≤ 90) then
    (.error .validationError, db)
  else if !admitted then (.error .rateLimited, db)
  else
    match findPartner db partnerId with
    | none => (.error .partnerNotFound, db)
    | some _ =>
      let entry : GPSHistory :=
        { coordinates := { lng := lng, lat := lat }, timestamp := now,
          speed := speed, accuracy := accuracy }
      let db1 := updatePartnerById db partnerId (fun p =>
        { p with location := { lng := lng, lat := lat }, updatedAt := now,
                 gpsHistory := pushSlice100 p.gpsHistory entry })
      if pubsubOk then
        (.ok { partnerId := partnerId,
               coordinates := { lng := lng, lat := lat }, timestamp := now },
         db1)
      else (.error .pubsubUnavailable, db1)

/-! ## Operation sequences

One core call with all of its environment (store availability,
rate-limit verdict, clock) packed in, for stating properties of every
reachable state. -/

/-- One invocation of a core operation, with its environment. -/
inductive Op where
  | assign (pubsubOk : Bool) (dist : Coordinates → Coordinates → Nat)
      (bookingId adminId : String) (now : Int)
  | review (pubsubOk : Bool) (bookingId : String) (dtype : DocType)
      (st : DocumentStatus) (reviewerId : String) (reason : Option String)
      (now : Int)
  | confirm (pubsubOk : Bool) (bookingId adminId : String) (now : Int)
  | gps (pubsubOk admitted : Bool) (partnerId : String) (lng lat : Int)
      (speed accuracy : Option Int) (now : Int)

/-- The store state an operation leaves behind (failure or success). -/
def applyOp (db : DB) : Op → DB
  | .assign pubsubOk dist bid aid now =>
      (assignPartner pubsubOk dist bid aid now db).2
  | .review pubsubOk bid dtype st reviewer reason now =>
      (reviewDocument pubsubOk bid dtype st reviewer reason now db).2
  | .confirm pubsubOk bid aid now =>
      (confirmBooking pubsubOk bid aid now db).2
  | .gps pubsubOk admitted pid lng lat speed accuracy now =>
      (recordGps pubsubOk admitted pid lng lat speed accuracy now db).2

/-- The store state after a sequence of core operations. -/
def applyOps (db : DB) : List Op → DB
  | [] => db
  | op :: ops => applyOps (applyOp db op) ops

/-- A booking that has entered review without a partner: no operation
can ever attach a partner to it again (assignment requires `pending`),
so it is stuck in `documents_under_review`. -/
def StuckBooking (bid : String) (db : DB) : Prop :=
  ∃ b, findBooking db bid = some b ∧ b.partnerId = none ∧
    b.status = .documentsUnderReview

/-- A partner that is currently attached to a booking (and not
`online`): such a partner fails the assignment eligibility query. -/
def AttachedPartner (pid : String) (db : DB) : Prop :=
  ∃ p, findPartner db pid = some p ∧ p.currentBookingId.isSome = true ∧
    p.status ≠ .online

/-! ### Concrete fixtures -/

/-- A delivery address in city `X`. -/
def fixtureAddress : Address :=
  { street := "s", city := "X", state := "st", pincode := "0",
    coordinates := { lng := 0, lat := 0 } }

/-- A document of the given type and status. -/
def mkDoc (t : DocType) (st : DocumentStatus) : Document :=
  { type := t, url := "u", status := st }

/-- A pending booking with no partner and one pending document. -/
def c1Booking : Booking :=
  { _id := "b1", userId := "u1", address := fixtureAddress,
    documents := [mkDoc .selfie .pending], status := .pending,
    createdAt := 0, updatedAt := 0 }

/-- Store containing only `c1Booking`. -/
def c1DB : DB := { bookings := [c1Booking], partners := [] }

/-- The partner assigned to `wBooking`. -/
def wPartner : Partner :=
  { _id := "p1", name := "P", email := "e", phone := "ph", city := "X",
    location := { lng := 1, lat := 1 }, status := .busy,
    currentBookingId := some "b2", totalDeliveries := some 3,
    createdAt := 0, updatedAt := 0 }

/-- A confirmable booking: a partner assigned, all documents approved. -/
def wBooking : Booking :=
  { _id := "b2", userId := "u", address := fixtureAddress,
    documents := [mkDoc .selfie .approved, mkDoc .signature .approved],
    status := .documentsUnderReview, partnerId := some "p1",
    createdAt := 0, updatedAt := 0 }

/-- Store with the confirmable booking and its partner. -/
def wDB : DB := { bookings := [wBooking], partners := [wPartner] }

/-- A cancelled booking that nevertheless has a partner assigned and
every document approved. -/
def c2Booking : Booking :=
  { _id := "b3", userId := "u", address := fixtureAddress,
    documents := [mkDoc .selfie .approved], status := .cancelled,
    partnerId := some "p1", createdAt := 0, updatedAt := 0 }

/-- Store containing the cancelled booking and a partner. -/
def c2DB : DB := { bookings := [c2Booking], partners := [wPartner] }

/-- East-west block distance, a stand-in for the store's spherical
distance in concrete runs. -/
def wdist (c1 c2 : Coordinates) : Nat := (c2.lng - c1.lng).natAbs

/-- A pending booking in city `X` at the origin. -/
def c4Booking : Booking :=
  { _id := "b4", userId := "u", address := fixtureAddress,
    documents := [mkDoc .selfie .pending], status := .pending,
    createdAt := 0, updatedAt := 0 }

/-- An available partner at the given city and east offset. -/
def mkPartner (id city : String) (lng : Int) : Partner :=
  { _id := id, name := id, email := "e", phone := "ph", city := city,
    location := { lng := lng, lat := 0 }, status := .online,
    createdAt := 0, updatedAt := 0 }

/-- Partner pool: in-city at 500 m and 1200 m, in-city but beyond the
50 km radius at 50001 m, and out-of-city at 1 m. -/
def c4DB : DB :=
  { bookings := [c4Booking],
    partners := [mkPartner "pA" "X" 500, mkPartner "pB" "X" 1200,
                 mkPartner "pC" "X" 50001, mkPartner "pD" "Y" 1] }

/-- The payload the assign route produces on the `c4DB` fixture. -/
def c4Payload : AssignPayload :=
  { bookingId := "b4", partnerId := "pA", partnerName := "pA",
    distance := 500 }


/-! ## Helper lemmas about lookups and updates -/

/-- `find?` by id commutes with mapping an id-preserving function. -/
lemma find?_id_map {α : Type} (idOf : α → String) (g : α → α)
    (h : ∀ a, idOf (g a) = idOf a) (q : String) :
    ∀ l : List α,
      (l.map g).find? (fun a => idOf a = q) =
        ((l.find? (fun a => idOf a = q)).map g)
  | [] => rfl
  | a :: l => by
      by_cases hq : idOf a = q
      · simp [List.find?, h, hq]
      · simpa [List.find?, h, hq] using find?_id_map idOf g h q l

/-- Lookup after an id-keyed update: the found record is the updated
form of the originally found record. -/
lemma findBooking_update (db : DB) (id q : String) (f : Booking → Booking)
    (h : ∀ b, (f b)._id = b._id) :
    findBooking (updateBookingById db id f) q =
      (findBooking db q).map (fun b => if b._id = id then f b else b) := by
  unfold findBooking updateBookingById
  exact find?_id_map Booking._id _
    (by intro b; split <;> simp [h]) q db.bookings

/-- Lookup after an id-keyed update, partner version. -/
lemma findPartner_update (db : DB) (id q : String) (f : Partner → Partner)
    (h : ∀ p, (f p)._id = p._id) :
    findPartner (updatePartnerById db id f) q =
      (findPartner db q).map (fun p => if p._id = id then f p else p) := by
  unfold findPartner updatePartnerById
  exact find?_id_map Partner._id _
    (by intro p; split <;> simp [h]) q db.partners

/-- Updating bookings never moves partners. -/
lemma findPartner_updateBookingById (db : DB) (id q : String)
    (f : Booking → Booking) :
    findPartner (updateBookingById db id f) q = findPartner db q := rfl

/-- Updating partners never moves bookings. -/
lemma findBooking_updatePartnerById (db : DB) (id q : String)
    (f : Partner → Partner) :
    findBooking (updatePartnerById db id f) q = findBooking db q := rfl

/-- A found booking satisfies the id predicate. -/
lemma findBooking_id {db : DB} {q : String} {b : Booking}
    (h : findBooking db q = some b) : b._id = q := by
  have := List.find?_some h
  simpa using this

/-- A found partner satisfies the id predicate. -/
lemma findPartner_id {db : DB} {q : String} {p : Partner}
    (h : findPartner db q = some p) : p._id = q := by
  have := List.find?_some h
  simpa using this

/-- Lookup is unchanged when the updated id is a different record. -/
lemma findBooking_update_ne {db : DB} {id q : String} {b : Booking}
    (f : Booking → Booking) (hfind : findBooking db q = some b)
    (hp : ∀ x, (f x)._id = x._id) (hne : b._id ≠ id) :
    findBooking (updateBookingById db id f) q = some b := by
  rw [findBooking_update db id q f hp, hfind]
  simp [hne]

/-- Lookup of the updated id yields the updated record. -/
lemma findBooking_update_self {db : DB} {id : String} {b : Booking}
    (f : Booking → Booking) (hfind : findBooking db id = some b)
    (hp : ∀ x, (f x)._id = x._id) :
    findBooking (updateBookingById db id f) id = some (f b) := by
  rw [findBooking_update db id id f hp, hfind]
  simp [findBooking_id hfind]

/-- Lookup after a partner update, resolved against the old lookup. -/
lemma findPartner_update_found {db : DB} {id q : String} {p : Partner}
    (f : Partner → Partner) (hfind : findPartner db q = some p)
    (hp : ∀ x, (f x)._id = x._id) :
    findPartner (updatePartnerById db id f) q =
      some (if p._id = id then f p else p) := by
  rw [findPartner_update db id q f hp, hfind]
  rfl

/-- Booking lookups only read the bookings collection. -/
lemma findBooking_congr {db1 db2 : DB} (h : db1.bookings = db2.bookings)
    (q : String) : findBooking db1 q = findBooking db2 q := by
  unfold findBooking
  rw [h]

/-- Partner lookups only read the partners collection. -/
lemma findPartner_congr {db1 db2 : DB} (h : db1.partners = db2.partners)
    (q : String) : findPartner db1 q = findPartner db2 q := by
  unfold findPartner
  rw [h]

/-- The GPS route never writes to the bookings collection. -/
lemma recordGps_bookings (pubsubOk admitted : Bool) (pid : String)
    (lng lat : Int) (speed accuracy : Option Int) (now : Int) (db : DB) :
    ((recordGps pubsubOk admitted pid lng lat speed accuracy now db).2).bookings
      = db.bookings := by
  unfold recordGps
  split
  · rfl
  · split
    · rfl
    · split
      · rfl
      · dsimp only
        split <;> rfl

/-- The review route never writes to the partners collection. -/
lemma reviewDocument_partners (pubsubOk : Bool) (bid : String)
    (dtype : DocType) (st : DocumentStatus) (reviewerId : String)
    (reason : Option String) (now : Int) (db : DB) :
    ((reviewDocument pubsubOk bid dtype st reviewerId reason now
        db).2).partners = db.partners := by
  unfold reviewDocument
  split
  · rfl
  · split
    · rfl
    · split
      · rfl
      · split
        · rfl
        · split
          · rfl
          · dsimp only
            split <;> rfl

/-! ### Preservation of the stuck-booking invariant -/

/-- Confirm preserves a stuck booking: on the stuck booking itself the
missing-partner check fails before any write; on another booking the
writes touch other records only. -/
lemma stuck_confirm {bid : String} (pubsubOk : Bool) (bid2 aid : String)
    (now : Int) (db : DB) (h : StuckBooking bid db) :
    StuckBooking bid (confirmBooking pubsubOk bid2 aid now db).2 := by
  obtain ⟨b, hf, hpn, hst⟩ := h
  have hbid : b._id = bid := findBooking_id hf
  by_cases heq : bid2 = bid
  · subst heq
    rw [show (confirmBooking pubsubOk bid2 aid now db).2 = db from by
      simp [confirmBooking, hf, hst, hpn]]
    exact ⟨b, hf, hpn, hst⟩
  · cases hf2 : findBooking db bid2 with
    | none =>
        rw [show (confirmBooking pubsubOk bid2 aid now db).2 = db from by
          simp [confirmBooking, hf2]]
        exact ⟨b, hf, hpn, hst⟩
    | some b2 =>
        by_cases hc : b2.status = BookingStatus.confirmed
        · rw [show (confirmBooking pubsubOk bid2 aid now db).2 = db from by
            simp [confirmBooking, hf2, hc]]
          exact ⟨b, hf, hpn, hst⟩
        · cases hp2 : b2.partnerId with
          | none =>
              rw [show (confirmBooking pubsubOk bid2 aid now db).2 = db from by
                simp [confirmBooking, hf2, hc, hp2]]
              exact ⟨b, hf, hpn, hst⟩
          | some pid =>
              by_cases hall : b2.documents.all
                  (fun d => d.status = .approved) = true
              · refine ⟨b, ?_, hpn, hst⟩
                rw [show (confirmBooking pubsubOk bid2 aid now db).2 =
                    updatePartnerById
                      (updateBookingById db bid2 (fun x =>
                        { x with status := .confirmed,
                                 confirmedAt := some now,
                                 confirmedBy := some aid,
                                 updatedAt := now })) pid
                      (fun p =>
                        { p with totalDeliveries :=
                            incDeliveries p.totalDeliveries,
                                 updatedAt := now }) from by
                  simp [confirmBooking, hf2, hc, hp2, hall, apply_ite]]
                rw [findBooking_updatePartnerById]
                exact findBooking_update_ne _ hf (fun _ => rfl)
                  (by rw [hbid]; exact fun hcc => heq hcc.symm)
              · rw [show (confirmBooking pubsubOk bid2 aid now db).2 = db
                    from by simp [confirmBooking, hf2, hc, hp2, hall]]
                exact ⟨b, hf, hpn, hst⟩

/-- Review preserves a stuck booking: a successful review keeps
`partnerId` untouched and (re)sets the status to
`documents_under_review`; every failing branch writes nothing. -/
lemma stuck_review {bid : String} (pubsubOk : Bool) (bid2 : String)
    (dtype : DocType) (st : DocumentStatus) (reviewerId : String)
    (reason : Option String) (now : Int) (db : DB)
    (h : StuckBooking bid db) :
    StuckBooking bid
      (reviewDocument pubsubOk bid2 dtype st reviewerId reason now db).2 := by
  obtain ⟨b, hf, hpn, hst⟩ := h
  have hbid : b._id = bid := findBooking_id hf
  by_cases hv : (decide (st = DocumentStatus.rejected)
      && !reasonTruthy reason) = true
  · rw [show (reviewDocument pubsubOk bid2 dtype st reviewerId reason now
        db).2 = db from by simp [reviewDocument, hv]]
    exact ⟨b, hf, hpn, hst⟩
  · cases hf2 : findBooking db bid2 with
    | none =>
        rw [show (reviewDocument pubsubOk bid2 dtype st reviewerId reason now
            db).2 = db from by simp [reviewDocument, hv, hf2]]
        exact ⟨b, hf, hpn, hst⟩
    | some b2 =>
        by_cases hcc : (b2.status = BookingStatus.confirmed
            || b2.status = BookingStatus.cancelled) = true
        · rw [show (reviewDocument pubsubOk bid2 dtype st reviewerId reason
              now db).2 = db from by simp [reviewDocument, hv, hf2, hcc]]
          exact ⟨b, hf, hpn, hst⟩
        · cases hd2 : b2.documents.find? (fun d0 => d0.type = dtype) with
          | none =>
              rw [show (reviewDocument pubsubOk bid2 dtype st reviewerId
                  reason now db).2 = db from by
                simp [reviewDocument, hv, hf2, hcc, hd2]]
              exact ⟨b, hf, hpn, hst⟩
          | some d2 =>
              by_cases hdp : d2.status = DocumentStatus.pending
              · have hshape : (reviewDocument pubsubOk bid2 dtype st
                    reviewerId reason now db).2 =
                      updateBookingById db bid2 (fun x =>
                        { x with
                            documents := updateFirstDoc dtype
                              (reviewedDoc st reviewerId reason now)
                              x.documents,
                            status := .documentsUnderReview,
                            updatedAt := now }) := by
                  simp [reviewDocument, hv, hf2, hcc, hd2, hdp, apply_ite]
                by_cases heq : bid2 = bid
                · subst heq
                  rw [hshape]
                  refine ⟨_, findBooking_update_self _ hf (fun _ => rfl),
                    ?_, ?_⟩
                  · exact hpn
                  · rfl
                · refine ⟨b, ?_, hpn, hst⟩
                  rw [hshape]
                  exact findBooking_update_ne _ hf (fun _ => rfl)
                    (by rw [hbid]; exact fun hcc2 => heq hcc2.symm)
              · rw [show (reviewDocument pubsubOk bid2 dtype st reviewerId
                    reason now db).2 = db from by
                  simp [reviewDocument, hv, hf2, hcc, hd2, hdp]]
                exact ⟨b, hf, hpn, hst⟩

/-- Assign preserves a stuck booking: the stuck booking itself is not
`pending`, so assignment on it fails before any write; assignment on
another booking writes other records. -/
lemma stuck_assign {bid : String} (pubsubOk : Bool)
    (dist : Coordinates → Coordinates → Nat) (bid2 aid : String)
    (now : Int) (db : DB) (h : StuckBooking bid db) :
    StuckBooking bid (assignPartner pubsubOk dist bid2 aid now db).2 := by
  obtain ⟨b, hf, hpn, hst⟩ := h
  have hbid : b._id = bid := findBooking_id hf
  by_cases heq : bid2 = bid
  · subst heq
    rw [show (assignPartner pubsubOk dist bid2 aid now db).2 = db from by
      simp [assignPartner, hf, hst]]
    exact ⟨b, hf, hpn, hst⟩
  · cases hf2 : findBooking db bid2 with
    | none =>
        rw [show (assignPartner pubsubOk dist bid2 aid now db).2 = db from by
          simp [assignPartner, hf2]]
        exact ⟨b, hf, hpn, hst⟩
    | some b2 =>
        by_cases hp2 : b2.status = BookingStatus.pending
        · cases hne : nearestEligible dist b2.address.coordinates
              b2.address.city db.partners with
          | none =>
              rw [show (assignPartner pubsubOk dist bid2 aid now db).2 = db
                  from by simp [assignPartner, hf2, hp2, hne]]
              exact ⟨b, hf, hpn, hst⟩
          | some p =>
              refine ⟨b, ?_, hpn, hst⟩
              rw [show (assignPartner pubsubOk dist bid2 aid now db).2 =
                  updatePartnerById
                    (updateBookingById db bid2 (fun x =>
                      { x with partnerId := some p._id,
                               partnerAssignedAt := some now,
                               partnerAssignedBy := some aid,
                               status := .partnerAssigned,
                               updatedAt := now })) p._id
                    (fun q =>
                      { q with currentBookingId := some bid2,
                               status := .busy, updatedAt := now }) from by
                simp [assignPartner, hf2, hp2, hne, apply_ite]]
              rw [findBooking_updatePartnerById]
              exact findBooking_update_ne _ hf (fun _ => rfl)
                (by rw [hbid]; exact fun hcc => heq hcc.symm)
        · rw [show (assignPartner pubsubOk dist bid2 aid now db).2 = db
              from by simp [assignPartner, hf2, hp2]]
          exact ⟨b, hf, hpn, hst⟩

/-- GPS ingestion preserves a stuck booking: it never writes to the
bookings collection. -/
lemma stuck_gps {bid : String} (pubsubOk admitted : Bool) (pid : String)
    (lng lat : Int) (speed accuracy : Option Int) (now : Int) (db : DB)
    (h : StuckBooking bid db) :
    StuckBooking bid
      (recordGps pubsubOk admitted pid lng lat speed accuracy now db).2 := by
  obtain ⟨b, hf, hpn, hst⟩ := h
  refine ⟨b, ?_, hpn, hst⟩
  rw [findBooking_congr
    (recordGps_bookings pubsubOk admitted pid lng lat speed accuracy now db)
    bid]
  exact hf

/-- Every core operation preserves a stuck booking. -/
lemma stuck_applyOp {bid : String} (db : DB) (op : Op)
    (h : StuckBooking bid db) : StuckBooking bid (applyOp db op) := by
  cases op with
  | assign pubsubOk dist bid2 aid now =>
      exact stuck_assign pubsubOk dist bid2 aid now db h
  | review pubsubOk bid2 dtype st reviewerId reason now =>
      exact stuck_review pubsubOk bid2 dtype st reviewerId reason now db h
  | confirm pubsubOk bid2 aid now =>
      exact stuck_confirm pubsubOk bid2 aid now db h
  | gps pubsubOk admitted pid lng lat speed accuracy now =>
      exact stuck_gps pubsubOk admitted pid lng lat speed accuracy now db h

/-- Every sequence of core operations preserves a stuck booking. -/
lemma stuck_applyOps {bid : String} (db : DB) (ops : List Op)
    (h : StuckBooking bid db) : StuckBooking bid (applyOps db ops) := by
  induction ops generalizing db with
  | nil => exact h
  | cons op ops ih => exact ih (applyOp db op) (stuck_applyOp db op h)

/-- At a stuck booking, assignment always fails with the
invalid-state error naming `documents_under_review`. -/
lemma assign_at_stuck {bid : String} (pubsubOk : Bool)
    (dist : Coordinates → Coordinates → Nat) (aid : String) (now : Int)
    (db : DB) (h : StuckBooking bid db) :
    (assignPartner pubsubOk dist bid aid now db).1 =
      .error (.invalidState .documentsUnderReview) := by
  obtain ⟨b, hf, _, hst⟩ := h
  simp [assignPartner, hf, hst]

/-- At a stuck booking, confirmation always fails (no partner is
assigned). -/
lemma confirm_at_stuck {bid : String} (pubsubOk : Bool) (aid : String)
    (now : Int) (db : DB) (h : StuckBooking bid db) :
    isOkB (confirmBooking pubsubOk bid aid now db).1 = false := by
  obtain ⟨b, hf, hpn, hst⟩ := h
  simp [confirmBooking, hf, hst, hpn, isOkB]

/-! ### Preservation of the attached-partner invariant -/

/-- Confirm preserves an attached partner: its partner update changes
only `totalDeliveries` and `updatedAt`. -/
lemma attached_confirm {pid : String} (pubsubOk : Bool) (bid2 aid : String)
    (now : Int) (db : DB) (h : AttachedPartner pid db) :
    AttachedPartner pid (confirmBooking pubsubOk bid2 aid now db).2 := by
  obtain ⟨p, hp, hcur, hon⟩ := h
  cases hf2 : findBooking db bid2 with
  | none =>
      rw [show (confirmBooking pubsubOk bid2 aid now db).2 = db from by
        simp [confirmBooking, hf2]]
      exact ⟨p, hp, hcur, hon⟩
  | some b2 =>
      by_cases hc : b2.status = BookingStatus.confirmed
      · rw [show (confirmBooking pubsubOk bid2 aid now db).2 = db from by
          simp [confirmBooking, hf2, hc]]
        exact ⟨p, hp, hcur, hon⟩
      · cases hp2 : b2.partnerId with
        | none =>
            rw [show (confirmBooking pubsubOk bid2 aid now db).2 = db from by
              simp [confirmBooking, hf2, hc, hp2]]
            exact ⟨p, hp, hcur, hon⟩
        | some pid2 =>
            by_cases hall : b2.documents.all
                (fun d => d.status = .approved) = true
            · rw [show (confirmBooking pubsubOk bid2 aid now db).2 =
                  updatePartnerById
                    (updateBookingById db bid2 (fun x =>
                      { x with status := .confirmed,
                               confirmedAt := some now,
                               confirmedBy := some aid,
                               updatedAt := now })) pid2
                    (fun q =>
                      { q with totalDeliveries :=
                          incDeliveries q.totalDeliveries,
                               updatedAt := now }) from by
                simp [confirmBooking, hf2, hc, hp2, hall, apply_ite]]
              have hp1 : findPartner
                  (updateBookingById db bid2 (fun x =>
                    { x with status := .confirmed,
                             confirmedAt := some now,
                             confirmedBy := some aid,
                             updatedAt := now })) pid = some p := hp
              refine ⟨_, findPartner_update_found _ hp1 (fun _ => rfl),
                ?_, ?_⟩
              · by_cases hpe : p._id = pid2 <;> simp [hpe, hcur]
              · by_cases hpe : p._id = pid2 <;> simp [hpe] <;> exact hon
            · rw [show (confirmBooking pubsubOk bid2 aid now db).2 = db
                  from by simp [confirmBooking, hf2, hc, hp2, hall]]
              exact ⟨p, hp, hcur, hon⟩

/-- Review preserves an attached partner: it never writes to the
partners collection. -/
lemma attached_review {pid : String} (pubsubOk : Bool) (bid2 : String)
    (dtype : DocType) (st : DocumentStatus) (reviewerId : String)
    (reason : Option String) (now : Int) (db : DB)
    (h : AttachedPartner pid db) :
    AttachedPartner pid
      (reviewDocument pubsubOk bid2 dtype st reviewerId reason now db).2 := by
  obtain ⟨p, hp, hcur, hon⟩ := h
  refine ⟨p, ?_, hcur, hon⟩
  rw [findPartner_congr
    (reviewDocument_partners pubsubOk bid2 dtype st reviewerId reason now db)
    pid]
  exact hp

/-- Assign preserves an attached partner: the chosen partner is set
`busy` with a booking attached, and every other partner record is left
alone — in particular no record ever has its `currentBookingId`
cleared or its status reset to `online`. -/
lemma attached_assign {pid : String} (pubsubOk : Bool)
    (dist : Coordinates → Coordinates → Nat) (bid2 aid : String)
    (now : Int) (db : DB) (h : AttachedPartner pid db) :
    AttachedPartner pid (assignPartner pubsubOk dist bid2 aid now db).2 := by
  obtain ⟨p, hp, hcur, hon⟩ := h
  cases hf2 : findBooking db bid2 with
  | none =>
      rw [show (assignPartner pubsubOk dist bid2 aid now db).2 = db from by
        simp [assignPartner, hf2]]
      exact ⟨p, hp, hcur, hon⟩
  | some b2 =>
      by_cases hp2 : b2.status = BookingStatus.pending
      · cases hne : nearestEligible dist b2.address.coordinates
            b2.address.city db.partners with
        | none =>
            rw [show (assignPartner pubsubOk dist bid2 aid now db).2 = db
                from by simp [assignPartner, hf2, hp2, hne]]
            exact ⟨p, hp, hcur, hon⟩
        | some p2 =>
            rw [show (assignPartner pubsubOk dist bid2 aid now db).2 =
                updatePartnerById
                  (updateBookingById db bid2 (fun x =>
                    { x with partnerId := some p2._id,
                             partnerAssignedAt := some now,
                             partnerAssignedBy := some aid,
                             status := .partnerAssigned,
                             updatedAt := now })) p2._id
                  (fun q =>
                    { q with currentBookingId := some bid2,
                             status := .busy, updatedAt := now }) from by
              simp [assignPartner, hf2, hp2, hne, apply_ite]]
            have hp1 : findPartner
                (updateBookingById db bid2 (fun x =>
                  { x with partnerId := some p2._id,
                           partnerAssignedAt := some now,
                           partnerAssignedBy := some aid,
                           status := .partnerAssigned,
                           updatedAt := now })) pid = some p := hp
            refine ⟨_, findPartner_update_found _ hp1 (fun _ => rfl),
              ?_, ?_⟩
            · by_cases hpe : p._id = p2._id <;> simp [hpe, hcur]
            · by_cases hpe : p._id = p2._id <;> simp [hpe]
              · exact hon
      · rw [show (assignPartner pubsubOk dist bid2 aid now db).2 = db
            from by simp [assignPartner, hf2, hp2]]
        exact ⟨p, hp, hcur, hon⟩

/-- GPS ingestion preserves an attached partner: its partner update
changes only the location, history and `updatedAt`. -/
lemma attached_gps {pid : String} (pubsubOk admitted : Bool)
    (pid2 : String) (lng lat : Int) (speed accuracy : Option Int)
    (now : Int) (db : DB) (h : AttachedPartner pid db) :
    AttachedPartner pid
      (recordGps pubsubOk admitted pid2 lng lat speed accuracy now db).2 := by
  obtain ⟨p, hp, hcur, hon⟩ := h
  unfold recordGps
  split
  · exact ⟨p, hp, hcur, hon⟩
  · split
    · exact ⟨p, hp, hcur, hon⟩
    · split
      · exact ⟨p, hp, hcur, hon⟩
      · dsimp only
        have key : AttachedPartner pid (updatePartnerById db pid2 (fun q =>
            { q with location := { lng := lng, lat := lat },
                     updatedAt := now,
                     gpsHistory := pushSlice100 q.gpsHistory
                       { coordinates := { lng := lng, lat := lat },
                         timestamp := now, speed := speed,
                         accuracy := accuracy } })) := by
          refine ⟨_, findPartner_update_found _ hp (fun _ => rfl), ?_, ?_⟩
          · by_cases hpe : p._id = pid2 <;> simp [hpe, hcur]
          · by_cases hpe : p._id = pid2 <;> simp [hpe] <;> exact hon
        split
        · exact key
        · exact key

/-- Every core operation preserves an attached partner. -/
lemma attached_applyOp {pid : String} (db : DB) (op : Op)
    (h : AttachedPartner pid db) : AttachedPartner pid (applyOp db op) := by
  cases op with
  | assign pubsubOk dist bid2 aid now =>
      exact attached_assign pubsubOk dist bid2 aid now db h
  | review pubsubOk bid2 dtype st reviewerId reason now =>
      exact attached_review pubsubOk bid2 dtype st reviewerId reason now db h
  | confirm pubsubOk bid2 aid now =>
      exact attached_confirm pubsubOk bid2 aid now db h
  | gps pubsubOk admitted pid2 lng lat speed accuracy now =>
      exact attached_gps pubsubOk admitted pid2 lng lat speed accuracy now
        db h

/-- Every sequence of core operations preserves an attached partner. -/
lemma attached_applyOps {pid : String} (db : DB) (ops : List Op)
    (h : AttachedPartner pid db) :
    AttachedPartner pid (applyOps db ops) := by
  induction ops generalizing db with
  | nil => exact h
  | cons op ops ih => exact ih (applyOp db op) (attached_applyOp db op h)

/-- An attached partner fails the assignment eligibility query. -/
lemma attached_not_eligible (p : Partner)
    (h : p.currentBookingId.isSome = true) :
    ∀ dist center city, eligiblePartner dist center city p = false := by
  intro dist center city
  unfold eligiblePartner
  cases hc : p.currentBookingId with
  | none => rw [hc] at h; exact absurd h (by simp)
  | some x => simp [hc]

/-! ## Claim theorems -/

/-- C3 counterexample.  The claim says a denied check "does not record
a new timestamp (a denied call leaves the subject's timestamp set
unchanged)".  With `limit = 1`, `windowSeconds = 1`, `now = 5000` and
one surviving timestamp `4500`, the check is denied
(`allowed = false`, `remaining = 0`) and yet the pipeline's
unconditional `zadd` records `5000`: the timestamp set changes from
`[4500]` to `[5000, 4500]`. -/
theorem rateLimit_denied_still_records :
    (rateLimit .ok 1 1 5000 [4500]).1 =
      .ok { allowed := false, remaining := 0, resetIn := 1 } ∧
    (rateLimit .ok 1 1 5000 [4500]).2 = [5000, 4500] ∧
    (rateLimit .ok 1 1 5000 [4500]).2 ≠ [4500] :=
  ⟨rfl, rfl, by decide⟩

/-- C3 (amended).  A rate-limiter check on a reachable store first
discards the subject's timestamps at or before `now - windowSeconds`
(in milliseconds; the removal range `[0, now - windowSeconds*1000]`
includes the boundary), then admits iff the count of surviving
timestamps is strictly below `limit`, returning
`remaining = limit - count - 1` when admitted and `remaining = 0` when
denied (truncated subtraction yields both), `resetIn = windowSeconds`;
in BOTH cases `now` is recorded into the surviving timestamp set (the
`zadd` is unconditional, so a denied call does not leave the set
unchanged). -/
theorem rateLimit_sliding_window (limit windowSeconds : Nat) (now : Int)
    (l : List Int) :
    ∃ r, (rateLimit .ok limit windowSeconds now l).1 = .ok r ∧
      (r.allowed = true ↔
        (zremrangebyscore 0 (now - (windowSeconds : Int) * 1000) l).length
          < limit) ∧
      r.remaining =
        limit -
          (zremrangebyscore 0 (now - (windowSeconds : Int) * 1000) l).length
          - 1 ∧
      r.resetIn = windowSeconds ∧
      (rateLimit .ok limit windowSeconds now l).2 =
        zadd now (zremrangebyscore 0 (now - (windowSeconds : Int) * 1000) l) ∧
      now ∈ (rateLimit .ok limit windowSeconds now l).2 := by
  refine ⟨_, rfl, ?_, rfl, rfl, rfl, ?_⟩
  · exact decide_eq_true_iff
  · show now ∈ zadd now (zremrangebyscore 0 (now - (windowSeconds : Int) * 1000) l)
    unfold zadd
    split
    · assumption
    · exact List.mem_cons_self _ _

/-- C7.  `withLock` on a reachable coordination store: if the key is
already held, acquisition fails and the call returns the lock
contention error with the wrapped state transformer never run (the
store state is returned untouched and the result does not depend on
`fn`); if acquisition succeeds, the wrapped function is run and the
lock is released afterwards — the final lock set equals the original
one whatever `fn` returns, i.e. also when `fn` produces an error (the
`finally` release) — so the whole call is `fn db` plus a restored lock
set. -/
theorem withLock_contention_or_release {σ β : Type} (key : String)
    (fn : σ → Except AppError β × σ) (db : σ) (locks : List String) :
    withLock true key fn db locks =
      if key ∈ locks then (.error .lockContention, db, locks)
      else ((fn db).1, (fn db).2, locks) := by
  by_cases h : key ∈ locks
  · simp [withLock, acquireLock, releaseLock, h]
  · simp [withLock, acquireLock, releaseLock, h]

/-- C8 (code bug).  `rateLimit` obtains the Redis client OUTSIDE its
`try` block (`src/lib/rateLimit.ts` line 15 versus the `try` starting
line 19), so a failing client connection (`getRedisClient` throws
`Redis URL not configured` / `Redis previously failed to connect` /
a connect timeout, `src/lib/redis.ts`) propagates to the caller
instead of being answered with `allowed = true`: the limiter does not
fail open on that store failure, for any key, limit and window,
contradicting the fail-open comments in the source and the
`Rate Limiting ... All requests allowed` degradation promise of the
repository's own deployment notes. -/
theorem rateLimit_connFailure_rejects (limit windowSeconds : Nat)
    (now : Int) (l : List Int) :
    rateLimit .connFailed limit windowSeconds now l =
      (.error .dependencyUnavailable, l) := rfl

/-- C1 counterexample.  The claim's first iff says confirm fails with
`DocumentsNotApproved` whenever some document is not approved (for any
existing, not-yet-confirmed booking).  On a pending booking with no
partner and a pending document, the missing-partner check fires first:
the call fails with the no-partner error, not `DocumentsNotApproved`,
although a document is unapproved. -/
theorem confirm_missingPartner_masks_documents :
    findBooking c1DB "b1" = some c1Booking ∧
    c1Booking.status ≠ .confirmed ∧
    (∃ d ∈ c1Booking.documents, d.status ≠ .approved) ∧
    (confirmBooking true "b1" "a1" 0 c1DB).1 = .error .noPartnerAssigned :=
  ⟨rfl, by decide, ⟨mkDoc .selfie .pending, by decide, by decide⟩, rfl⟩

/-- Shared: for an existing, not-confirmed booking, confirm fails with
`DocumentsNotApproved` iff a partner is assigned and some document is
unapproved. -/
lemma confirm_dna_iff (bid aid : String) (now : Int) (db : DB) (b : Booking)
    (hfind : findBooking db bid = some b) (hnc : b.status ≠ .confirmed) :
    (∃ ts, (confirmBooking true bid aid now db).1 =
        .error (.documentsNotApproved ts)) ↔
      (b.partnerId.isSome = true ∧
        ¬ b.documents.all (fun d => d.status = .approved) = true) := by
  cases hpid : b.partnerId with
  | none => simp [confirmBooking, hfind, hnc, hpid]
  | some pid =>
      by_cases hall : b.documents.all (fun d => d.status = .approved) = true
      · simp [confirmBooking, hfind, hnc, hpid, hall]
      · simp [confirmBooking, hfind, hnc, hpid, hall]

/-- Shared: for an existing, not-confirmed booking (broadcast store
reachable), confirm succeeds iff a partner is assigned and every
document is approved. -/
lemma confirm_ok_iff (bid aid : String) (now : Int) (db : DB) (b : Booking)
    (hfind : findBooking db bid = some b) (hnc : b.status ≠ .confirmed) :
    isOkB (confirmBooking true bid aid now db).1 = true ↔
      (b.partnerId.isSome = true ∧
        b.documents.all (fun d => d.status = .approved) = true) := by
  cases hpid : b.partnerId with
  | none => simp [confirmBooking, hfind, hnc, hpid, isOkB]
  | some pid =>
      by_cases hall : b.documents.all (fun d => d.status = .approved) = true
      · simp [confirmBooking, hfind, hnc, hpid, hall, isOkB]
      · simp [confirmBooking, hfind, hnc, hpid, hall, isOkB]

/-- Shared: the success outcome of confirm — payload, confirmed
booking, and the partner-collection update incrementing the assigned
partner's delivery counter. -/
lemma confirm_success_state (bid aid : String) (now : Int) (db : DB)
    (b : Booking) (hfind : findBooking db bid = some b)
    (hnc : b.status ≠ .confirmed) :
    ∀ pid, b.partnerId = some pid →
      b.documents.all (fun d => d.status = .approved) = true →
      (confirmBooking true bid aid now db).1 =
        .ok { bookingId := bid, partnerId := pid, confirmedAt := now,
              confirmedBy := aid } ∧
      findBooking (confirmBooking true bid aid now db).2 bid =
        some { b with status := .confirmed, confirmedAt := some now,
                      confirmedBy := some aid, updatedAt := now } ∧
      (confirmBooking true bid aid now db).2.partners =
        db.partners.map (fun p => if p._id = pid then
          { p with totalDeliveries := incDeliveries p.totalDeliveries,
                   updatedAt := now } else p) := by
  have hb : b._id = bid := findBooking_id hfind
  intro pid hpid hall
  refine ⟨?_, ?_, ?_⟩
  · simp [confirmBooking, hfind, hnc, hpid, hall]
  · rw [show (confirmBooking true bid aid now db).2 =
        updatePartnerById
          (updateBookingById db bid (fun x =>
            { x with status := .confirmed, confirmedAt := some now,
                     confirmedBy := some aid, updatedAt := now })) pid
          (fun p =>
            { p with totalDeliveries := incDeliveries p.totalDeliveries,
                     updatedAt := now })
      from by simp [confirmBooking, hfind, hnc, hpid, hall]]
    rw [findBooking_updatePartnerById,
      findBooking_update db bid bid
        (fun x => { x with status := .confirmed,
                           confirmedAt := some now,
                           confirmedBy := some aid, updatedAt := now })
        (fun _ => rfl),
      hfind]
    simp [hb, hpid]
  · simp [confirmBooking, hfind, hnc, hpid, hall, updatePartnerById,
      updateBookingById]

/-- C1 (amended).  For every existing booking that is not already
confirmed, with the event broadcaster reachable: confirm-booking fails
with `DocumentsNotApproved` iff a partner IS assigned and at least one
document is not approved (the missing-partner check precedes the
document check, so without a partner the failure is the no-partner
error even when documents are unapproved); it succeeds iff a partner
is assigned and every document is approved; and on success the booking
becomes `confirmed` with the confirming actor and timestamp recorded
and the assigned partner's delivery counter incremented by one
(`updatedAt` refreshed), all other partner records untouched. -/
theorem confirm_spec (bid aid : String) (now : Int) (db : DB) (b : Booking)
    (hfind : findBooking db bid = some b) (hnc : b.status ≠ .confirmed) :
    ((∃ ts, (confirmBooking true bid aid now db).1 =
        .error (.documentsNotApproved ts)) ↔
      (b.partnerId.isSome = true ∧
        ¬ b.documents.all (fun d => d.status = .approved) = true)) ∧
    (isOkB (confirmBooking true bid aid now db).1 = true ↔
      (b.partnerId.isSome = true ∧
        b.documents.all (fun d => d.status = .approved) = true)) ∧
    (∀ pid, b.partnerId = some pid →
      b.documents.all (fun d => d.status = .approved) = true →
      (confirmBooking true bid aid now db).1 =
        .ok { bookingId := bid, partnerId := pid, confirmedAt := now,
              confirmedBy := aid } ∧
      findBooking (confirmBooking true bid aid now db).2 bid =
        some { b with status := .confirmed, confirmedAt := some now,
                      confirmedBy := some aid, updatedAt := now } ∧
      (confirmBooking true bid aid now db).2.partners =
        db.partners.map (fun p => if p._id = pid then
          { p with totalDeliveries := incDeliveries p.totalDeliveries,
                   updatedAt := now } else p)) :=
  ⟨confirm_dna_iff bid aid now db b hfind hnc,
   confirm_ok_iff bid aid now db b hfind hnc,
   confirm_success_state bid aid now db b hfind hnc⟩

/-- Witness for `confirm_spec` at the confirmable fixture. -/
theorem confirm_spec_witness :
    findBooking wDB "b2" = some wBooking ∧
    wBooking.status ≠ .confirmed ∧
    isOkB (confirmBooking true "b2" "a9" 99 wDB).1 = true :=
  ⟨rfl, by decide,
    ((confirm_spec "b2" "a9" 99 wDB wBooking rfl (by decide)).2.1).mpr
      (by decide)⟩

/-- C2 counterexample.  The claim says confirming a cancelled booking
never sets its status to `confirmed`, even with a partner assigned and
every document approved.  The confirm route only rejects bookings that
are already `confirmed` (`src/app/api/bookings/confirm/route.ts` line
63); a cancelled booking with a partner and approved documents sails
through and ends up `confirmed`. -/
theorem confirm_cancelled_succeeds :
    findBooking c2DB "b3" = some c2Booking ∧
    c2Booking.status = .cancelled ∧
    isOkB (confirmBooking true "b3" "a1" 7 c2DB).1 = true ∧
    findBooking (confirmBooking true "b3" "a1" 7 c2DB).2 "b3" =
      some { c2Booking with status := .confirmed, confirmedAt := some 7,
                            confirmedBy := some "a1", updatedAt := 7 } :=
  ⟨rfl, rfl, rfl, by decide⟩

/-- C2 (amended).  The cancelled state is terminal where it is
actually checked — review-document rejects any review on a cancelled
booking and leaves the store untouched — but confirm-booking checks
only for `confirmed`: on a cancelled booking it succeeds exactly when
a partner is assigned and every document is approved, moving the
booking from `cancelled` to `confirmed`. -/
theorem cancelled_terminal_only_in_review (pubsubOk : Bool) (bid : String)
    (dtype : DocType) (st : DocumentStatus) (reviewerId : String)
    (reason : Option String) (now : Int) (aid : String) (now' : Int)
    (db : DB) (b : Booking)
    (hfind : findBooking db bid = some b) (hc : b.status = .cancelled) :
    (reviewDocument pubsubOk bid dtype st reviewerId reason now db).2 = db ∧
    isOkB (reviewDocument pubsubOk bid dtype st reviewerId reason now db).1
      = false ∧
    (isOkB (confirmBooking true bid aid now' db).1 = true ↔
      (b.partnerId.isSome = true ∧
        b.documents.all (fun d => d.status = .approved) = true)) := by
  have hnc : b.status ≠ .confirmed := by rw [hc]; simp
  refine ⟨?_, ?_, confirm_ok_iff bid aid now' db b hfind hnc⟩
  · by_cases hv : (st = DocumentStatus.rejected && !reasonTruthy reason) = true
    · simp [reviewDocument, hv]
    · simp [reviewDocument, hv, hfind, hc]
  · by_cases hv : (st = DocumentStatus.rejected && !reasonTruthy reason) = true
    · simp [reviewDocument, hv, isOkB]
    · simp [reviewDocument, hv, hfind, hc, isOkB]

/-- Witness for `cancelled_terminal_only_in_review` at the cancelled
fixture. -/
theorem cancelled_terminal_witness :
    findBooking c2DB "b3" = some c2Booking ∧
    c2Booking.status = .cancelled ∧
    (reviewDocument true "b3" .selfie .approved "r1" none 3 c2DB).2 = c2DB :=
  ⟨rfl, rfl,
    (cancelled_terminal_only_in_review true "b3" .selfie .approved "r1" none 3
      "a1" 7 c2DB c2Booking rfl rfl).1⟩

/-- C4.  For every assign-partner call on an existing booking in
`pending` status: the call fails with no-partner-available iff no
partner in the pool satisfies all of online + same city + unassigned +
within the 50 km radius (the eligibility query), and whenever the call
succeeds the chosen partner satisfies every one of those constraints —
so a partner outside the city or outside the radius is never chosen —
and is nearest by the given spherical-distance function among all
partners satisfying them. -/
theorem assign_nearest_spec (pubsubOk : Bool)
    (dist : Coordinates → Coordinates → Nat) (bid aid : String) (now : Int)
    (db : DB) (b : Booking)
    (hfind : findBooking db bid = some b) (hp : b.status = .pending) :
    ((assignPartner pubsubOk dist bid aid now db).1 =
        .error .noPartnerAvailable ↔
      ∀ p ∈ db.partners,
        eligiblePartner dist b.address.coordinates b.address.city p
          = false) ∧
    (∀ pl, (assignPartner pubsubOk dist bid aid now db).1 = .ok pl →
      ∃ p ∈ db.partners, p._id = pl.partnerId ∧
        eligiblePartner dist b.address.coordinates b.address.city p
          = true ∧
        ∀ q ∈ db.partners,
          eligiblePartner dist b.address.coordinates b.address.city q
            = true →
          dist b.address.coordinates p.location ≤
            dist b.address.coordinates q.location) := by
  cases hne : nearestEligible dist b.address.coordinates b.address.city
      db.partners with
  | none =>
      have hfil : db.partners.filter
          (eligiblePartner dist b.address.coordinates b.address.city)
            = [] :=
        List.argmin_eq_none.mp hne
      constructor
      · constructor
        · intro _ p hpmem
          have := List.filter_eq_nil_iff.mp hfil p hpmem
          simpa using this
        · intro _
          simp [assignPartner, hfind, hp, nearestEligible, hfil]
      · intro pl hpl
        rw [show (assignPartner pubsubOk dist bid aid now db).1 =
            .error .noPartnerAvailable from by
          simp [assignPartner, hfind, hp, hne]] at hpl
        exact Except.noConfusion hpl
  | some p =>
      have hpmem : p ∈ db.partners.filter
          (eligiblePartner dist b.address.coordinates b.address.city) :=
        List.argmin_mem (Option.mem_def.mpr hne)
      have hpelig := List.mem_filter.mp hpmem
      constructor
      · constructor
        · intro hres
          rw [show (assignPartner pubsubOk dist bid aid now db).1 =
              if pubsubOk then
                .ok { bookingId := bid, partnerId := p._id,
                      partnerName := p.name,
                      distance := dist b.address.coordinates p.location }
              else .error .pubsubUnavailable from by
            simp [assignPartner, hfind, hp, hne, apply_ite]] at hres
          by_cases hps : pubsubOk = true
          · rw [if_pos hps] at hres; exact Except.noConfusion hres
          · rw [if_neg hps] at hres
            exact absurd (Except.error.inj hres) (by simp)
        · intro hall
          exact absurd (hall p hpelig.1) (by simp [hpelig.2])
      · intro pl hpl
        rw [show (assignPartner pubsubOk dist bid aid now db).1 =
            if pubsubOk then
              .ok { bookingId := bid, partnerId := p._id,
                    partnerName := p.name,
                    distance := dist b.address.coordinates p.location }
            else .error .pubsubUnavailable from by
          simp [assignPartner, hfind, hp, hne, apply_ite]] at hpl
        by_cases hps : pubsubOk = true
        · rw [if_pos hps] at hpl
          have hpl' := Except.ok.inj hpl
          refine ⟨p, hpelig.1, ?_, hpelig.2, ?_⟩
          · rw [← hpl']
          · intro q hq hqe
            have hargmin : List.argmin
                (fun x => dist b.address.coordinates x.location)
                (db.partners.filter
                  (eligiblePartner dist b.address.coordinates b.address.city))
                = some p := hne
            exact List.le_of_mem_argmin
              (f := fun x => dist b.address.coordinates x.location)
              (List.mem_filter.mpr ⟨hq, hqe⟩) (Option.mem_def.mpr hargmin)
        · rw [if_neg hps] at hpl
          exact Except.noConfusion hpl

/-- Witness for `assign_nearest_spec`: on the fixture pool the chosen
partner is the in-city 500 m one, not the out-of-city 1 m one nor the
out-of-radius 50001 m one. -/
theorem assign_nearest_witness :
    findBooking c4DB "b4" = some c4Booking ∧
    c4Booking.status = .pending ∧
    (assignPartner true wdist "b4" "a1" 5 c4DB).1 = .ok c4Payload ∧
    ∃ p ∈ c4DB.partners, p._id = c4Payload.partnerId ∧
      eligiblePartner wdist c4Booking.address.coordinates
        c4Booking.address.city p = true ∧
      ∀ q ∈ c4DB.partners,
        eligiblePartner wdist c4Booking.address.coordinates
          c4Booking.address.city q = true →
        wdist c4Booking.address.coordinates p.location ≤
          wdist c4Booking.address.coordinates q.location :=
  ⟨rfl, rfl, rfl,
    (assign_nearest_spec true wdist "b4" "a1" 5 c4DB c4Booking rfl rfl).2
      c4Payload rfl⟩

/-- C5 (code bug evidence).  The confirm route performs its two Mongo
updates BEFORE `publishBookingConfirmed`, and the publish helpers in
`src/lib/pubsub.ts` do not catch: when the event store is unreachable
the publish throws, the route returns a failure — yet the booking is
already `confirmed` and the partner counter already incremented.  A
failing confirm-booking call has mutated both records, refuting "every
operation ... that returns a failure leaves all booking and partner
records unchanged". -/
theorem confirm_pubsubFailure_mutates :
    isOkB (confirmBooking false "b2" "a9" 99 wDB).1 = false ∧
    (confirmBooking false "b2" "a9" 99 wDB).1 = .error .pubsubUnavailable ∧
    (confirmBooking false "b2" "a9" 99 wDB).2 ≠ wDB ∧
    findBooking (confirmBooking false "b2" "a9" 99 wDB).2 "b2" =
      some { wBooking with status := .confirmed, confirmedAt := some 99,
                           confirmedBy := some "a9", updatedAt := 99 } ∧
    findPartner (confirmBooking false "b2" "a9" 99 wDB).2 "p1" =
      some { wPartner with totalDeliveries := some 4, updatedAt := 99 } :=
  ⟨rfl, rfl, by decide, by decide, by decide⟩

/-- C6.  For every booking and named document (well-formed request: a
rejection carries a truthy reason): the review succeeds iff the
booking is neither `confirmed` nor `cancelled` and the named document
is currently `pending`; and whenever the named document is already
decided (not `pending`), the review fails with one of the two
invalid-state errors (booking-state or document-already-reviewed — the
spec's `InvalidState` kind) and leaves the whole store unchanged, so a
document transitions out of `pending` at most once. -/
theorem review_once_spec (bid : String) (dtype : DocType)
    (st : DocumentStatus) (reviewerId : String) (reason : Option String)
    (now : Int) (db : DB) (b : Booking) (d : Document)
    (hfind : findBooking db bid = some b)
    (hdoc : b.documents.find? (fun d0 => d0.type = dtype) = some d)
    (hval : st = .rejected → reasonTruthy reason = true) :
    (isOkB (reviewDocument true bid dtype st reviewerId reason now db).1
        = true ↔
      (b.status ≠ .confirmed ∧ b.status ≠ .cancelled ∧
        d.status = .pending)) ∧
    (d.status ≠ .pending →
      isOkB (reviewDocument true bid dtype st reviewerId reason now db).1
        = false ∧
      ((reviewDocument true bid dtype st reviewerId reason now db).1 =
         .error (.invalidState b.status) ∨
       (reviewDocument true bid dtype st reviewerId reason now db).1 =
         .error (.documentAlreadyReviewed d.status)) ∧
      (reviewDocument true bid dtype st reviewerId reason now db).2 = db) := by
  have hv : (decide (st = DocumentStatus.rejected)
      && !reasonTruthy reason) = false := by
    by_cases hst : st = DocumentStatus.rejected
    · simp [hst, hval hst]
    · simp [hst]
  by_cases hcc : (b.status = BookingStatus.confirmed
      || b.status = BookingStatus.cancelled) = true
  · constructor
    · simp only [Bool.or_eq_true, decide_eq_true_iff] at hcc
      constructor
      · intro hok
        rw [show (reviewDocument true bid dtype st reviewerId reason now db).1
            = .error (.invalidState b.status) from by
          simp [reviewDocument, hv, hfind, hcc]] at hok
        exact absurd hok (by simp [isOkB])
      · rintro ⟨h1, h2, _⟩
        rcases hcc with h | h
        · exact absurd h h1
        · exact absurd h h2
    · intro _
      refine ⟨?_, Or.inl ?_, ?_⟩
      · simp [reviewDocument, hv, hfind, hcc, isOkB]
      · simp [reviewDocument, hv, hfind, hcc]
      · simp [reviewDocument, hv, hfind, hcc]
  · by_cases hdp : d.status = .pending
    · constructor
      · constructor
        · intro _
          simp only [Bool.or_eq_true, decide_eq_true_iff, not_or] at hcc
          exact ⟨hcc.1, hcc.2, hdp⟩
        · intro _
          simp [reviewDocument, hv, hfind, hcc, hdoc, hdp, isOkB]
      · intro hnd
        exact absurd hdp hnd
    · constructor
      · constructor
        · intro hok
          rw [show (reviewDocument true bid dtype st reviewerId reason now
              db).1 = .error (.documentAlreadyReviewed d.status) from by
            simp [reviewDocument, hv, hfind, hcc, hdoc, hdp]] at hok
          exact absurd hok (by simp [isOkB])
        · rintro ⟨_, _, h3⟩
          exact absurd h3 hdp
      · intro _
        refine ⟨?_, Or.inr ?_, ?_⟩
        · simp [reviewDocument, hv, hfind, hcc, hdoc, hdp, isOkB]
        · simp [reviewDocument, hv, hfind, hcc, hdoc, hdp]
        · simp [reviewDocument, hv, hfind, hcc, hdoc, hdp]

/-- Witness for `review_once_spec` at the pending-document fixture. -/
theorem review_once_witness :
    findBooking c1DB "b1" = some c1Booking ∧
    c1Booking.documents.find? (fun d0 => d0.type = DocType.selfie) =
      some (mkDoc .selfie .pending) ∧
    isOkB (reviewDocument true "b1" .selfie .approved "r1" none 4 c1DB).1
      = true :=
  ⟨rfl, rfl,
    ((review_once_spec "b1" .selfie .approved "r1" none 4 c1DB c1Booking
      (mkDoc .selfie .pending) rfl rfl (by decide)).1).mpr (by decide)⟩

/-- C9 counterexample.  The claim says that for a booking still in
`pending` status with no partner assigned, "the review succeeds".  On
such a booking, reviewing a document type the booking does not contain
fails with the document-not-found error: success additionally needs
the named document to exist (and to be pending). -/
theorem review_pending_missing_doc_fails :
    findBooking c1DB "b1" = some c1Booking ∧
    c1Booking.status = .pending ∧
    c1Booking.partnerId = none ∧
    (reviewDocument true "b1" .signature .approved "r1" none 3 c1DB).1 =
      .error .documentNotFound ∧
    isOkB (reviewDocument true "b1" .signature .approved "r1" none 3 c1DB).1
      = false :=
  ⟨rfl, rfl, rfl, rfl, rfl⟩

/-- C9 (amended).  If review-document is applied to a booking in
`pending` status with no partner assigned, where the named document
exists and is `pending` (a rejection carrying a truthy reason, the
broadcaster reachable), the review succeeds and forces the booking to
`documents_under_review` with no partner; from that state, after ANY
sequence of core operations, the booking still has no partner and
status `documents_under_review` (hence never `confirmed`),
assign-partner always fails with the invalid-state error (it requires
`pending`), and confirm-booking always fails (it requires an assigned
partner): such a booking can never reach `confirmed`. -/
theorem review_pending_no_partner_stuck (bid : String) (dtype : DocType)
    (st : DocumentStatus) (reviewerId : String) (reason : Option String)
    (now : Int) (db : DB) (b : Booking) (d : Document)
    (hfind : findBooking db bid = some b)
    (hpend : b.status = .pending) (hnp : b.partnerId = none)
    (hdoc : b.documents.find? (fun d0 => d0.type = dtype) = some d)
    (hdp : d.status = .pending)
    (hval : st = .rejected → reasonTruthy reason = true) :
    isOkB (reviewDocument true bid dtype st reviewerId reason now db).1
      = true ∧
    StuckBooking bid
      (reviewDocument true bid dtype st reviewerId reason now db).2 ∧
    (∀ ops : List Op, ∃ b',
      findBooking
        (applyOps (reviewDocument true bid dtype st reviewerId reason now
          db).2 ops) bid = some b' ∧
      b'.partnerId = none ∧ b'.status = .documentsUnderReview ∧
      b'.status ≠ .confirmed) ∧
    (∀ (ops : List Op) (pubsubOk2 : Bool)
        (dist : Coordinates → Coordinates → Nat) (aid2 : String)
        (now2 : Int),
      (assignPartner pubsubOk2 dist bid aid2 now2
        (applyOps (reviewDocument true bid dtype st reviewerId reason now
          db).2 ops)).1 = .error (.invalidState .documentsUnderReview)) ∧
    (∀ (ops : List Op) (pubsubOk2 : Bool) (aid2 : String) (now2 : Int),
      isOkB (confirmBooking pubsubOk2 bid aid2 now2
        (applyOps (reviewDocument true bid dtype st reviewerId reason now
          db).2 ops)).1 = false) := by
  have hv : (decide (st = DocumentStatus.rejected)
      && !reasonTruthy reason) = false := by
    by_cases hst : st = DocumentStatus.rejected
    · simp [hst, hval hst]
    · simp [hst]
  have hshape : (reviewDocument true bid dtype st reviewerId reason now
      db).2 = updateBookingById db bid (fun x =>
        { x with
            documents := updateFirstDoc dtype
              (reviewedDoc st reviewerId reason now) x.documents,
            status := .documentsUnderReview, updatedAt := now }) := by
    simp [reviewDocument, hv, hfind, hpend, hdoc, hdp]
  have hstuck : StuckBooking bid
      (reviewDocument true bid dtype st reviewerId reason now db).2 := by
    rw [hshape]
    exact ⟨_, findBooking_update_self _ hfind (fun _ => rfl), hnp, rfl⟩
  refine ⟨?_, hstuck, ?_, ?_, ?_⟩
  · simp [reviewDocument, hv, hfind, hpend, hdoc, hdp, isOkB]
  · intro ops
    obtain ⟨b', hb', hpn', hst'⟩ := stuck_applyOps _ ops hstuck
    exact ⟨b', hb', hpn', hst', by rw [hst']; simp⟩
  · intro ops pubsubOk2 dist aid2 now2
    exact assign_at_stuck pubsubOk2 dist aid2 now2 _
      (stuck_applyOps _ ops hstuck)
  · intro ops pubsubOk2 aid2 now2
    exact confirm_at_stuck pubsubOk2 aid2 now2 _
      (stuck_applyOps _ ops hstuck)

/-- Witness for `review_pending_no_partner_stuck`: the fixture booking
reviewed successfully, then assignment on the resulting store (empty
continuation) fails with the invalid-state error. -/
theorem review_stuck_witness :
    isOkB (reviewDocument true "b1" .selfie .approved "r1" none 4 c1DB).1
      = true ∧
    (assignPartner true wdist "b1" "a7" 9
      (applyOps (reviewDocument true "b1" .selfie .approved "r1" none 4
        c1DB).2 [])).1 = .error (.invalidState .documentsUnderReview) :=
  ⟨(review_pending_no_partner_stuck "b1" .selfie .approved "r1" none 4 c1DB
      c1Booking (mkDoc .selfie .pending) rfl rfl rfl rfl rfl
      (by decide)).1,
   (review_pending_no_partner_stuck "b1" .selfie .approved "r1" none 4 c1DB
      c1Booking (mkDoc .selfie .pending) rfl rfl rfl rfl rfl
      (by decide)).2.2.2.1 [] true wdist "a7" 9⟩

/-- C10.  On a successful confirm, the assigned partner's record is
modified only by incrementing `totalDeliveries` and refreshing
`updatedAt` — its collection is exactly the old collection with that
one pointwise change, so `status` (busy) and `currentBookingId` are
preserved — and, after ANY sequence of further core operations, the
partner still has a `currentBookingId` attached and a non-`online`
status (no core operation returns a partner to `online` or clears
`currentBookingId`), hence it fails the assignment eligibility query
forever: once assigned, a partner is never again eligible. -/
theorem confirm_partner_frame (bid aid : String) (now : Int) (db : DB)
    (b : Booking) (pid : String) (p : Partner)
    (hfind : findBooking db bid = some b) (hnc : b.status ≠ .confirmed)
    (hpid : b.partnerId = some pid)
    (hall : b.documents.all (fun d => d.status = .approved) = true)
    (hp : findPartner db pid = some p)
    (hcur : p.currentBookingId.isSome = true) (hon : p.status ≠ .online) :
    (confirmBooking true bid aid now db).2.partners =
      db.partners.map (fun q => if q._id = pid then
        { q with totalDeliveries := incDeliveries q.totalDeliveries,
                 updatedAt := now } else q) ∧
    findPartner (confirmBooking true bid aid now db).2 pid =
      some { p with totalDeliveries := incDeliveries p.totalDeliveries,
                    updatedAt := now } ∧
    (∀ ops : List Op, ∃ p',
      findPartner (applyOps (confirmBooking true bid aid now db).2 ops) pid
        = some p' ∧
      p'.currentBookingId.isSome = true ∧ p'.status ≠ .online ∧
      ∀ dist center city, eligiblePartner dist center city p' = false) := by
  have hpm : p._id = pid := findPartner_id hp
  have hframe := (confirm_success_state bid aid now db b hfind hnc pid hpid
    hall).2.2
  have hlook : findPartner (confirmBooking true bid aid now db).2 pid =
      some { p with totalDeliveries := incDeliveries p.totalDeliveries,
                    updatedAt := now } := by
    unfold findPartner
    rw [hframe,
      find?_id_map Partner._id _ (by intro q; split <;> rfl) pid
        db.partners,
      show db.partners.find? (fun q => q._id = pid) = some p from hp]
    simp [hpm]
  refine ⟨hframe, hlook, ?_⟩
  intro ops
  have hatt : AttachedPartner pid (confirmBooking true bid aid now db).2 :=
    ⟨_, hlook, hcur, hon⟩
  obtain ⟨p', hp', hcur', hon'⟩ := attached_applyOps _ ops hatt
  exact ⟨p', hp', hcur', hon', attached_not_eligible p' hcur'⟩

/-- Witness for `confirm_partner_frame` at the confirmable fixture:
the partner record after confirmation, with only the counter and
timestamp changed. -/
theorem confirm_partner_frame_witness :
    findPartner wDB "p1" = some wPartner ∧
    findPartner (confirmBooking true "b2" "a9" 99 wDB).2 "p1" =
      some { wPartner with totalDeliveries := some 4, updatedAt := 99 } :=
  ⟨rfl,
    (confirm_partner_frame "b2" "a9" 99 wDB wBooking "p1" wPartner rfl
      (by decide) rfl rfl rfl rfl (by decide)).2.1⟩

end PartnerAllocation
